import Mathlib

/-!
Verification of the axlite handler-wrapping and error-normalization pipeline.

The development shallowly embeds the TypeScript sources:
  * `handleResult` / `wrapper`  (src/unnamed/part_001, duplicated in src/src/guards.ts)
  * `httpErrorHandler` / `globalErrorHandler` (src/src/guards.ts, src/unnamed/part_000)
  * `LocalController.getMethod` (src/unnamed/part_001)

JavaScript runtime values relevant to these functions are modelled by the
inductive type `Value`; observable effects against the response sink and the
continuation are modelled by `Action` lists; code that can throw is modelled
with `Except Value`.
-/

set_option autoImplicit false

namespace Axlite

/-- JavaScript values as the embedded functions observe them: primitives,
plain objects (association lists of fields), instances of the `ApiRes`
envelope class, instances of the `HttpError` class, and the response-sink
reference `res` itself (returned by fluent handler code such as
`return res.send(x)`). `apiRes` and `httpError` are distinguished
constructors because the source discriminates them with `instanceof` /
`HttpError.isHttpError`, an exact tag check. -/
inductive Value where
  | undef
  | nullV
  | boolV (b : Bool)
  | numV (n : Int)
  | strV (s : String)
  | obj (fields : List (String × Value))
  | apiRes (code : Int) (message : Option String) (payload : Value) (meta : Option Value)
  | httpError (status : Int) (message : String) (detail : Option Value)
  | resSink
  deriving Repr

/-- JavaScript truthiness of a `Value` (`undefined`, `null`, `false`, `0`
and the empty string are falsy; every object reference is truthy). -/
def truthy : Value → Bool
  | .undef => false
  | .nullV => false
  | .boolV b => b
  | .numV n => n != 0
  | .strV s => !s.isEmpty
  | _ => true

/-- `result instanceof ApiRes`. -/
def isApiRes : Value → Bool
  | .apiRes _ _ _ _ => true
  | _ => false

/-- Reference equality with the response sink (`result !== res` in the
source): within one invocation the sink is the unique `resSink` value. -/
def isResSink : Value → Bool
  | .resSink => true
  | _ => false

/-- `HttpError.isHttpError(err)`: the exact tag check for the classified
error class. -/
def isHttpError : Value → Bool
  | .httpError _ _ _ => true
  | _ => false

/-- Observable effects of one request: a combined `res.status(c).json(b)`
terminal write, a `res.send(b)` terminal write, or a hand-off `next(e)` to
the continuation. -/
inductive Action where
  | statusJson (code : Int) (body : Value)
  | send (body : Value)
  | nextCall (err : Value)
  deriving Repr

/-- Modelled from the spec: the `ApiRes` envelope class lives in
`src/api-res.ts`, which is not among the provided sources. Per the spec the
envelope serializes to the wire shape `(code, message?, data?, meta?)`; its
wire status is the envelope's code. -/
def apiResToJson (code : Int) (message : Option String) (payload : Value)
    (meta : Option Value) : Value :=
  .obj ((("code", Value.numV code) ::
    (match message with
      | some m => [("message", Value.strV m)]
      | none => [])) ++
    (("data", payload) ::
    (match meta with
      | some mv => [("meta", mv)]
      | none => [])))

/-- Embedding of `handleResult(result, res)`:
if the result is an `ApiRes` instance, send `res.status(result.status)
.json(result.toJson())`; otherwise, if the result is truthy and is not the
response sink itself, `res.send(result)`; otherwise do nothing. -/
def handleResult : Value → List Action
  | .apiRes c m p mt => [Action.statusJson c (apiResToJson c m p mt)]
  | r => if truthy r && !isResSink r then [Action.send r] else []

/-- How a handler invocation terminates: a synchronous return, a synchronous
throw, or a returned promise that later resolves or rejects. -/
inductive Outcome where
  | ret (v : Value)
  | thr (e : Value)
  | resolves (v : Value)
  | rejects (e : Value)
  deriving Repr

/-- A route handler, abstracted to its observable behaviour on one fixed
(request, sink, continuation) triple: the sink writes it performs itself
during the invocation, followed by how the invocation terminates. -/
structure Handler where
  effects : List Action
  outcome : Outcome

/-- The actions the adapter layer of `wrapper(func)` itself contributes,
after `func` has run: `handleResult` on a sync return or a resolution, and
`next(e)` on a sync throw (via the `try/catch`) or a rejection (via
`.catch(next)`). -/
def adapterActions (h : Handler) : List Action :=
  match h.outcome with
  | .ret v => handleResult v
  | .thr e => [Action.nextCall e]
  | .resolves v => handleResult v
  | .rejects e => [Action.nextCall e]

/-- Embedding of one invocation of `wrapper(func)` on the triple: the
handler's own effects happen first, then the adapter's action. -/
def wrapperRun (h : Handler) : List Action :=
  h.effects ++ adapterActions h

/-- `wrapper(func)` as a handler value again: invoking it performs
`wrapperRun` as its effects; the arrow function body has no `return`
statement and every synchronous exception is caught by its `try/catch`
(the sink and continuation themselves do not throw), so it returns
`undefined` and never throws. -/
def wrapped (h : Handler) : Handler :=
  { effects := wrapperRun h, outcome := Outcome.ret Value.undef }

/-- A `TypeError` value, as thrown by JavaScript when a property is read
from `null` or `undefined`. -/
def typeErrorVal : Value :=
  Value.strV "TypeError: cannot read properties of null or undefined"

/-- JavaScript property access `v.name`: throws a `TypeError` on `null` and
`undefined`, looks the field up on plain objects (absent fields read as
`undefined`), and yields `undefined` on other primitives. -/
def getProp (v : Value) (name : String) : Except Value Value :=
  match v with
  | .undef => .error typeErrorVal
  | .nullV => .error typeErrorVal
  | .obj fields => .ok ((fields.lookup name).getD Value.undef)
  | .httpError _ m _ => .ok (if name = "message" then Value.strV m else Value.undef)
  | _ => .ok Value.undef

/-- Modelled from the spec: the `HttpError` class lives in
`src/errors.ts`, which is not among the provided sources. Per the spec a
classified error serializes to the wire shape `(code, message, detail?)`,
with the detail omitted when absent. -/
def httpErrorToJson (status : Int) (message : String) (detail : Option Value) : Value :=
  .obj ((("code", Value.numV status) :: ("message", Value.strV message) :: []) ++
    (match detail with
      | some dv => [("detail", dv)]
      | none => []))

/-- Modelled from the spec: `InternalServerError` lives in `src/errors.ts`,
which is not among the provided sources. Per the spec it is the synthesized
generic classified error with status 500; its serialized form is
`(code, message, detail?)`, with a `null` (or `undefined`) detail omitted. -/
def internalErrToJson (message : Value) (detail : Value) : Value :=
  .obj ((("code", Value.numV 500) :: ("message", message) :: []) ++
    (match detail with
      | .nullV => []
      | .undef => []
      | d => [("detail", d)]))

/-- Embedding of one invocation of the middleware returned by
`httpErrorHandler(options)` (`globalErrorHandler` in part_000 is
line-for-line the same logic) on a failure value `err`.

`dev` is the `dev`/`isDev` flag (source default `true`); `logBeh` gives the
behaviour of the configured `log`/`write` callback on each argument:
`none` means it returns normally, `some t` means it throws `t`.

The result records the arguments the log callback was invoked with, and
either the list of terminal writes performed or the value the middleware
invocation itself threw. Mirrors the source order:
1. if `HttpError.isHttpError(err)`, write `res.status(err.status)
   .json(err.toJson())` and return;
2. otherwise invoke `log?.(err)` (unguarded: a throw propagates);
3. build `new InternalServerError(dev ? err.message : 'Something went
   wrong', dev ? err.stack : null)` (the property reads can throw) and
   write `res.status(500).json(error.toJson())`. -/
def httpErrorHandlerRun (dev : Bool) (logBeh : Value → Option Value) (err : Value) :
    List Value × Except Value (List Action) :=
  match err with
  | .httpError s m d => ([], .ok [Action.statusJson s (httpErrorToJson s m d)])
  | e =>
    match logBeh e with
    | some thrown => ([e], .error thrown)
    | none =>
      match (if dev then getProp e "message" else .ok (Value.strV "Something went wrong")) with
      | .error t => ([e], .error t)
      | .ok msg =>
        match (if dev then getProp e "stack" else .ok Value.nullV) with
        | .error t => ([e], .error t)
        | .ok stk => ([e], .ok [Action.statusJson 500 (internalErrToJson msg stk)])

/-- A controller class identity: the base class `LocalController` itself,
or an application subclass extending it (identified by name). -/
inductive ClassId where
  | localController
  | subclass (name : String)
  deriving DecidableEq, Repr

/-- The memoization state of `LocalController`: the value of its private
static field `#instance` (`null` initially); an instance is identified by
the class it was constructed from. -/
structure LCState where
  inst : Option ClassId
  deriving DecidableEq, Repr

/-- Reading (or read-modify-writing) the private static field
`this.#instance`: ECMAScript brand-checks private static fields against the
declaring class, so the access succeeds only when `this` is
`LocalController` itself; on a subclass it throws a `TypeError`. -/
def lcPrivateErr : Value :=
  Value.strV "TypeError: cannot read private member from an object whose class did not declare it"

/-- Embedding of `LocalController.getMethod` called with `this = self` in
state `st`, up to the instance resolution step
`const instance = (this.#instance ??= resolve(this, 'local'))`:
returns the instance used (identified by its class) and the new state, or
the thrown value. `resolve(cls, 'local')` is `new cls()`. -/
def lcGetMethod (self : ClassId) (st : LCState) : Except Value (ClassId × LCState) :=
  if self = ClassId.localController then
    match st.inst with
    | some i => .ok (i, st)
    | none => .ok (self, ⟨some self⟩)
  else .error lcPrivateErr

/-! ## Helper lemmas -/

theorem handleResult_length_le_one (v : Value) : (handleResult v).length ≤ 1 := by
  cases v <;> simp [handleResult] <;> split <;> simp

theorem handleResult_eq_nil_iff (v : Value) :
    handleResult v = [] ↔ isApiRes v = false ∧ (truthy v = false ∨ isResSink v = true) := by
  cases v <;> simp [handleResult, isApiRes, truthy, isResSink]

theorem handleResult_of_not_apiRes (v : Value) (hv : isApiRes v = false) :
    handleResult v = if truthy v && !isResSink v then [Action.send v] else [] := by
  cases v <;> first
    | rfl
    | exact absurd hv (by simp [isApiRes])

/-! ## Claims about the handler adapter -/

/-- C1 (amended): for every handler and every outcome shape the adapter
layer of `wrap(h)` contributes at most one action — never two — and it
contributes zero actions exactly when the handler's eventual value is
falsy (absent / `null` / `false` / `0` / empty string) or is the response
sink itself; in those shapes the adapter performs no action at all, so
"never zero" does not hold. -/
theorem adapter_at_most_one_action (h : Handler) :
    (adapterActions h).length ≤ 1 ∧
      (adapterActions h = [] ↔
        ∃ v, (h.outcome = Outcome.ret v ∨ h.outcome = Outcome.resolves v) ∧
          isApiRes v = false ∧ (truthy v = false ∨ isResSink v = true)) := by
  obtain ⟨effs, o⟩ := h
  cases o with
  | ret v =>
      refine ⟨handleResult_length_le_one v, ?_⟩
      simp only [adapterActions, handleResult_eq_nil_iff]
      constructor
      · intro hv; exact ⟨v, Or.inl rfl, hv.1, hv.2⟩
      · rintro ⟨w, hw, hw2, hw3⟩
        rcases hw with hw | hw <;> cases hw
        exact ⟨hw2, hw3⟩
  | thr e => exact ⟨by simp [adapterActions], by simp [adapterActions]⟩
  | resolves v =>
      refine ⟨handleResult_length_le_one v, ?_⟩
      simp only [adapterActions, handleResult_eq_nil_iff]
      constructor
      · intro hv; exact ⟨v, Or.inr rfl, hv.1, hv.2⟩
      · rintro ⟨w, hw, hw2, hw3⟩
        rcases hw with hw | hw <;> cases hw
        exact ⟨hw2, hw3⟩
  | rejects e => exact ⟨by simp [adapterActions], by simp [adapterActions]⟩

/-- C1 (counterexample): a handler that performs no write of its own and
returns `undefined` makes the whole wrapped invocation perform zero sink
writes and zero failure hand-offs, contradicting "never zero actions". -/
theorem wrapper_undef_zero_actions :
    wrapperRun ⟨[], Outcome.ret Value.undef⟩ = [] := rfl

/-- C3: a handler that throws synchronously with value `E`, or returns a
promise rejecting with value `E`, makes the adapter hand exactly `E` to the
continuation unmodified, and the wrapped handler itself returns normally
(with `undefined`), so the raised value never propagates to the adapter's
caller. -/
theorem wrapper_failure_identity (h : Handler) (e : Value)
    (hout : h.outcome = Outcome.thr e ∨ h.outcome = Outcome.rejects e) :
    adapterActions h = [Action.nextCall e] ∧
      (wrapped h).outcome = Outcome.ret Value.undef := by
  rcases hout with h1 | h1 <;> simp [adapterActions, wrapped, h1]

/-- C3 witness at a concrete synchronously-throwing handler. -/
theorem wrapper_failure_identity_witness :
    adapterActions ⟨[], Outcome.thr (Value.strV "E")⟩ =
        [Action.nextCall (Value.strV "E")] ∧
      (wrapped ⟨[], Outcome.thr (Value.strV "E")⟩).outcome = Outcome.ret Value.undef :=
  wrapper_failure_identity ⟨[], Outcome.thr (Value.strV "E")⟩ (Value.strV "E") (Or.inl rfl)

/-- C4: a handler whose eventual return value is an `ApiRes` envelope with
code `c` makes the adapter perform exactly one write, with wire status `c`
and the envelope's serialized form as the body. -/
theorem wrapper_envelope_write (h : Handler) (c : Int) (m : Option String)
    (p : Value) (mt : Option Value)
    (hout : h.outcome = Outcome.ret (Value.apiRes c m p mt) ∨
      h.outcome = Outcome.resolves (Value.apiRes c m p mt)) :
    adapterActions h = [Action.statusJson c (apiResToJson c m p mt)] := by
  rcases hout with h1 | h1 <;> simp [adapterActions, h1, handleResult]

/-- C4 witness: the spec scenario — an envelope with code 201 and payload
`(id, 1)` yields status 201 and a body carrying `code = 201` and
`data = (id, 1)`. -/
theorem wrapper_envelope_write_witness :
    adapterActions ⟨[], Outcome.ret (Value.apiRes 201 none (Value.obj [("id", Value.numV 1)]) none)⟩ =
      [Action.statusJson 201
        (Value.obj [("code", Value.numV 201), ("data", Value.obj [("id", Value.numV 1)])])] :=
  wrapper_envelope_write
    ⟨[], Outcome.ret (Value.apiRes 201 none (Value.obj [("id", Value.numV 1)]) none)⟩
    201 none (Value.obj [("id", Value.numV 1)]) none (Or.inl rfl)

/-- C5 (amended): a non-envelope eventual return value is written as the
body by `res.send` exactly when it is truthy and is not the response sink;
the source tests truthiness, not presence, so present-but-falsy values
(`0`, the empty string, `false`, `null`) produce no write. -/
theorem wrapper_plain_value_write (h : Handler) (v : Value)
    (hout : h.outcome = Outcome.ret v ∨ h.outcome = Outcome.resolves v)
    (hnotapi : isApiRes v = false) :
    adapterActions h = if truthy v && !isResSink v then [Action.send v] else [] := by
  rcases hout with h1 | h1 <;>
    simp only [adapterActions, h1, handleResult_of_not_apiRes v hnotapi]

/-- C5 witness at a concrete truthy non-envelope value. -/
theorem wrapper_plain_value_write_witness :
    adapterActions ⟨[], Outcome.ret (Value.numV 7)⟩ = [Action.send (Value.numV 7)] :=
  wrapper_plain_value_write ⟨[], Outcome.ret (Value.numV 7)⟩ (Value.numV 7) (Or.inl rfl) rfl

/-- C5 (counterexample): a handler returning the present value `0` — not
absent, not an envelope, not the sink — produces no write at all, because
the source's guard `result && result !== res` tests truthiness. -/
theorem wrapper_falsy_value_not_written :
    adapterActions ⟨[], Outcome.ret (Value.numV 0)⟩ = [] ∧
      isApiRes (Value.numV 0) = false ∧ isResSink (Value.numV 0) = false ∧
      adapterActions ⟨[], Outcome.ret (Value.numV 0)⟩ ≠ [Action.send (Value.numV 0)] := by
  refine ⟨rfl, rfl, rfl, ?_⟩
  intro hc
  simp [adapterActions, handleResult, truthy] at hc

/-- C10: wrapping is idempotent under composition — one invocation of
`wrapper(wrapper(h))` performs exactly the same actions as one invocation
of `wrapper(h)`, because a wrapped handler returns `undefined` (which the
outer `handleResult` ignores) and never throws. -/
theorem wrapper_idempotent (h : Handler) :
    wrapperRun (wrapped h) = wrapperRun h ∧
      (wrapped h).outcome = Outcome.ret Value.undef := by
  refine ⟨?_, rfl⟩
  simp [wrapperRun, wrapped, adapterActions, handleResult, truthy]

/-! ## Claims about the error terminator -/

theorem terminator_fst_eq (dev : Bool) (logBeh : Value → Option Value) (err : Value)
    (hnc : isHttpError err = false) :
    (httpErrorHandlerRun dev logBeh err).1 = [err] := by
  cases err <;> simp only [isHttpError, Bool.true_eq_false] at hnc ⊢ <;>
    simp only [httpErrorHandlerRun] <;>
    rcases hlog : logBeh _ with _ | t <;> simp only [] <;>
    cases dev <;> simp only [getProp] <;> rfl

/-- C2 (amended): provided the fault is a classified error, or the logging
callback returns normally and — in dev mode — the fault value is not
`null`/`undefined` (so its `message`/`stack` property reads do not throw),
one invocation of the terminator performs exactly one terminal write and
raises nothing. Without those provisos the middleware itself can throw and
write nothing: see the counterexample. -/
theorem terminator_single_write (dev : Bool) (logBeh : Value → Option Value) (err : Value)
    (hok : isHttpError err = true ∨
      (logBeh err = none ∧ (dev = true → err ≠ Value.nullV ∧ err ≠ Value.undef))) :
    ∃ a, (httpErrorHandlerRun dev logBeh err).2 = Except.ok [a] := by
  rcases hok with hcls | ⟨hlog, hdev⟩
  · cases err <;> simp only [isHttpError, Bool.false_eq_true] at hcls
    exact ⟨_, rfl⟩
  · cases err <;>
      first
        | exact ⟨_, rfl⟩
        | (simp only [httpErrorHandlerRun, hlog]
           cases dev <;> simp only [getProp]
           · exact ⟨_, rfl⟩
           · first
              | exact ⟨_, rfl⟩
              | exact absurd rfl (hdev rfl).1
              | exact absurd rfl (hdev rfl).2)

/-- C2 witness at a concrete classified error. -/
theorem terminator_single_write_witness :
    ∃ a, (httpErrorHandlerRun true (fun _ => none)
      (Value.httpError 400 "Name required" none)).2 = Except.ok [a] :=
  terminator_single_write true (fun _ => none)
    (Value.httpError 400 "Name required" none) (Or.inl rfl)

/-- C2 (counterexample): with the default configuration (dev mode on, a
logging callback that returns normally), handing the terminator the fault
value `null` makes the property read `err.message` throw a `TypeError`: the
invocation raises and performs zero terminal writes. -/
theorem terminator_null_fault_throws :
    httpErrorHandlerRun true (fun _ => none) Value.nullV =
      ([Value.nullV], Except.error typeErrorVal) := rfl

/-- C6: a failure value passing the exact `HttpError.isHttpError` tag check
is written with status equal to its code and its serialized form —
containing its message and, when present, its detail, verbatim — as the
body, for every dev flag and every logging callback, and the logging
callback is never invoked. -/
theorem terminator_classified (dev : Bool) (logBeh : Value → Option Value)
    (s : Int) (m : String) (d : Option Value) :
    httpErrorHandlerRun dev logBeh (Value.httpError s m d) =
      ([], Except.ok [Action.statusJson s
        (Value.obj (("code", Value.numV s) :: ("message", Value.strV m) ::
          (match d with
            | some dv => [("detail", dv)]
            | none => [])))]) := rfl

/-- C7 (amended): for every non-classified fault whose logging callback
returns normally: with the dev flag off the terminator writes status 500
with the fixed generic message and no detail — one constant body, so the
response is independent of the fault's content; with the dev flag on, a
fault carrying `message` and `stack` properties has them exposed verbatim
as the body's message and detail. (A `null`/`undefined` fault in dev mode
instead makes the terminator throw before writing: see the
counterexample.) -/
theorem terminator_fault_privacy :
    (∀ (logBeh : Value → Option Value) (err : Value),
        isHttpError err = false → logBeh err = none →
        (httpErrorHandlerRun false logBeh err).2 =
          Except.ok [Action.statusJson 500
            (Value.obj [("code", Value.numV 500),
              ("message", Value.strV "Something went wrong")])]) ∧
    (∀ (logBeh : Value → Option Value) (fields : List (String × Value)) (m s : String),
        fields.lookup "message" = some (Value.strV m) →
        fields.lookup "stack" = some (Value.strV s) →
        logBeh (Value.obj fields) = none →
        (httpErrorHandlerRun true logBeh (Value.obj fields)).2 =
          Except.ok [Action.statusJson 500
            (Value.obj [("code", Value.numV 500), ("message", Value.strV m),
              ("detail", Value.strV s)])]) := by
  constructor
  · intro logBeh err hnc hlog
    cases err <;> simp only [isHttpError, Bool.true_eq_false] at hnc ⊢ <;>
      simp [httpErrorHandlerRun, hlog, internalErrToJson]
  · intro logBeh fields m s hm hs hlog
    simp [httpErrorHandlerRun, hlog, getProp, hm, hs, internalErrToJson]

/-- C7 witness: a concrete fault under each dev flag. -/
theorem terminator_fault_privacy_witness :
    (httpErrorHandlerRun false (fun _ => none) (Value.strV "secret stuff")).2 =
      Except.ok [Action.statusJson 500
        (Value.obj [("code", Value.numV 500),
          ("message", Value.strV "Something went wrong")])] ∧
    (httpErrorHandlerRun true (fun _ => none)
        (Value.obj [("message", Value.strV "boom"), ("stack", Value.strV "trace")])).2 =
      Except.ok [Action.statusJson 500
        (Value.obj [("code", Value.numV 500), ("message", Value.strV "boom"),
          ("detail", Value.strV "trace")])] :=
  ⟨terminator_fault_privacy.1 (fun _ => none) (Value.strV "secret stuff") rfl rfl,
   terminator_fault_privacy.2 (fun _ => none)
     [("message", Value.strV "boom"), ("stack", Value.strV "trace")] "boom" "trace"
     rfl rfl rfl⟩

/-- C7 (counterexample): with the dev flag on, the non-classified fault
`null` receives no 500 write at all — the terminator throws a `TypeError`
reading `err.message` — so "for every non-classified fault value the
terminator writes status 500" fails as stated. -/
theorem terminator_dev_null_no_write :
    httpErrorHandlerRun true (fun _ => none) Value.undef =
      ([Value.undef], Except.error typeErrorVal) := rfl

/-- C8 (amended): for every non-classified fault the terminator invokes the
logging callback exactly once, with the raw fault value; but the invocation
is not guarded — if the callback throws `t`, the middleware propagates `t`
and the terminal 500 response is never written. -/
theorem terminator_logs_once_unguarded (dev : Bool) (logBeh : Value → Option Value)
    (err : Value) (hnc : isHttpError err = false) :
    (httpErrorHandlerRun dev logBeh err).1 = [err] ∧
      (∀ t, logBeh err = some t →
        httpErrorHandlerRun dev logBeh err = ([err], Except.error t)) := by
  refine ⟨terminator_fst_eq dev logBeh err hnc, ?_⟩
  intro t hlog
  cases err <;> simp only [isHttpError, Bool.true_eq_false] at hnc ⊢ <;>
    simp [httpErrorHandlerRun, hlog]

/-- C8 witness at a concrete fault and a concrete throwing callback. -/
theorem terminator_logs_once_unguarded_witness :
    (httpErrorHandlerRun true (fun _ => some (Value.strV "logfail")) (Value.numV 3)).1 =
        [Value.numV 3] ∧
      httpErrorHandlerRun true (fun _ => some (Value.strV "logfail")) (Value.numV 3) =
        ([Value.numV 3], Except.error (Value.strV "logfail")) :=
  ⟨(terminator_logs_once_unguarded true (fun _ => some (Value.strV "logfail"))
      (Value.numV 3) rfl).1,
   (terminator_logs_once_unguarded true (fun _ => some (Value.strV "logfail"))
      (Value.numV 3) rfl).2 (Value.strV "logfail") rfl⟩

/-- C8 (counterexample): a logging callback that throws prevents the
terminal 500 write — the invocation of `log?.(err)` is not wrapped in any
guarded scope, contradicting "guarded so that a throwing logging callback
cannot prevent the terminal 500 response". -/
theorem terminator_logger_throw_prevents_write :
    httpErrorHandlerRun true (fun _ => some (Value.strV "logger exploded"))
        (Value.strV "boom") =
      ([Value.strV "boom"], Except.error (Value.strV "logger exploded")) := rfl

/-! ## Claim about LocalController -/

/-- C9 (code bug): calling the static `getMethod` through a subclass of
`LocalController` — the usage its own README documents — throws a
`TypeError` at the private static field access `this.#instance` (the field
brand belongs to `LocalController` only), so no instance is ever
constructed and no handler is returned, contradicting the memoization
claim. -/
theorem localController_subclass_throws :
    lcGetMethod (ClassId.subclass "ExampleController") ⟨none⟩ =
      Except.error lcPrivateErr := rfl

end Axlite
